import Mathlib

/-!
Verification development for the mini_autogpt decision-validation-retry loop
and rolling-memory core. Python sources are shallowly embedded as executable
Lean definitions; file I/O is threaded as explicit list state and the LLM
gateway as an oracle function.
-/

set_option autoImplicit false

namespace MiniAutoGPT

/-! ## JSON values, modelling the Python `json` module objects -/

/-- Result of Python `json.loads`: `null`/`bool`/`int`/`float`/`str`/`list`/`dict`.
Float values never need arithmetic here, so a float is kept as its numeral text. -/
inductive JsonVal where
  | null
  | bool (b : Bool)
  | int (n : Int)
  | float (numeral : String)
  | str (s : String)
  | arr (items : List JsonVal)
  | obj (members : List (String × JsonVal))
deriving Repr

/-- Python dict insertion while decoding an object: a duplicate key replaces the
stored value in place, otherwise the pair is appended (CPython dict semantics). -/
def objInsert (kvs : List (String × JsonVal)) (k : String) (v : JsonVal) :
    List (String × JsonVal) :=
  match kvs with
  | [] => [(k, v)]
  | (k₀, v₀) :: rest =>
      if k₀ = k then (k₀, v) :: rest else (k₀, v₀) :: objInsert rest k v

/-- Whitespace accepted between JSON tokens by Python `json` (space, tab, LF, CR). -/
def isJsonWs (c : Char) : Bool :=
  c = ' ' || c = '\t' || c = '\n' || c = '\r'

/-- Skip leading JSON whitespace. -/
def skipWs : List Char → List Char
  | [] => []
  | c :: cs => if isJsonWs c then skipWs cs else c :: cs

/-- Value of a hexadecimal digit. -/
def hexVal (c : Char) : Option Nat :=
  if '0' ≤ c ∧ c ≤ '9' then some (c.toNat - '0'.toNat)
  else if 'a' ≤ c ∧ c ≤ 'f' then some (c.toNat - 'a'.toNat + 10)
  else if 'A' ≤ c ∧ c ≤ 'F' then some (c.toNat - 'A'.toNat + 10)
  else none

/-- Single-character JSON string escapes. -/
def escChar : Char → Option Char
  | '\"' => some '\"'
  | '\\' => some '\\'
  | '/' => some '/'
  | 'b' => some '\x08'
  | 'f' => some '\x0c'
  | 'n' => some '\n'
  | 'r' => some '\r'
  | 't' => some '\t'
  | _ => none

/-- Body of a JSON string literal after the opening quote: returns the decoded
text and the input remaining after the closing quote. Control characters are
rejected (strict mode) and surrogate escapes are not modelled. -/
def parseStringBody : List Char → List Char → Option (String × List Char)
  | [], _ => none
  | '\"' :: rest, acc => some (String.mk acc.reverse, rest)
  | '\\' :: rest, acc =>
      (match rest with
      | 'u' :: h₁ :: h₂ :: h₃ :: h₄ :: rest₂ =>
          (match hexVal h₁, hexVal h₂, hexVal h₃, hexVal h₄ with
          | some a, some b, some c, some d =>
              let n := ((a * 16 + b) * 16 + c) * 16 + d
              if n < 0xd800 then parseStringBody rest₂ (Char.ofNat n :: acc) else none
          | _, _, _, _ => none)
      | e :: rest₂ =>
          (match escChar e with
          | some c => parseStringBody rest₂ (c :: acc)
          | none => none)
      | [] => none)
  | c :: rest, acc =>
      if c.toNat ≥ 0x20 then parseStringBody rest (c :: acc) else none

/-- Numeric value of a decimal digit character. -/
def digToNat (c : Char) : Nat := c.toNat - '0'.toNat

/-- Natural number denoted by a list of decimal digits. -/
def natOfDigits (ds : List Char) : Nat :=
  ds.foldl (fun n c => n * 10 + digToNat c) 0

/-- Optional exponent part of a JSON number: returns the consumed characters
(empty when no exponent is present) and the rest of the input. -/
def parseExpPart (cs : List Char) : Option (List Char × List Char) :=
  match cs with
  | c :: cs₁ =>
      if c = 'e' ∨ c = 'E' then
        match cs₁ with
        | s :: cs₂ =>
            if s = '+' ∨ s = '-' then
              let ds := cs₂.takeWhile Char.isDigit
              if ds = [] then none else some (c :: s :: ds, cs₂.drop ds.length)
            else
              let ds := cs₁.takeWhile Char.isDigit
              if ds = [] then none else some (c :: ds, cs₁.drop ds.length)
        | [] => none
      else some ([], cs)
  | [] => some ([], [])

/-- JSON number per the grammar accepted by Python `json`: optional minus,
integer part without leading zeros, optional fraction and exponent. Integral
numerals yield `JsonVal.int`; anything with a fraction or exponent yields a
symbolic `JsonVal.float`. -/
def parseNumber (cs : List Char) : Option (JsonVal × List Char) :=
  let (neg, cs₁) := match cs with
    | '-' :: rest => (true, rest)
    | _ => (false, cs)
  let intDigits := cs₁.takeWhile Char.isDigit
  let cs₂ := cs₁.drop intDigits.length
  if intDigits = [] then none
  else if intDigits.length > 1 ∧ intDigits.head? = some '0' then none
  else
    let signChars : List Char := if neg then ['-'] else []
    match cs₂ with
    | '.' :: cs₃ =>
        let fracDigits := cs₃.takeWhile Char.isDigit
        if fracDigits = [] then none
        else
          let cs₄ := cs₃.drop fracDigits.length
          match parseExpPart cs₄ with
          | some (expChars, cs₅) =>
              some (.float (String.mk (signChars ++ intDigits ++ '.' :: fracDigits ++ expChars)), cs₅)
          | none => none
    | _ =>
        match parseExpPart cs₂ with
        | some ([], _) =>
            let n : Int := natOfDigits intDigits
            some (.int (if neg then -n else n), cs₂)
        | some (expChars, cs₅) =>
            some (.float (String.mk (signChars ++ intDigits ++ expChars)), cs₅)
        | none => none

mutual

/-- Parse one JSON value (fuel-indexed recursive descent; the fuel passed by
`json_loads` always exceeds the input length, and every recursive call follows
at least one consumed character, so the fuel never runs out on real input). -/
def parseValue : Nat → List Char → Option (JsonVal × List Char)
  | 0, _ => none
  | fuel + 1, cs =>
      match cs with
      | '\x7b' :: rest =>
          (match skipWs rest with
          | '\x7d' :: r => some (.obj [], r)
          | cs₁ => parseObjRest fuel cs₁ [])
      | '[' :: rest =>
          (match skipWs rest with
          | ']' :: r => some (.arr [], r)
          | cs₁ => parseArrRest fuel cs₁ [])
      | '\"' :: rest => (parseStringBody rest []).map fun p => (JsonVal.str p.1, p.2)
      | 't' :: 'r' :: 'u' :: 'e' :: rest => some (.bool true, rest)
      | 'f' :: 'a' :: 'l' :: 's' :: 'e' :: rest => some (.bool false, rest)
      | 'n' :: 'u' :: 'l' :: 'l' :: rest => some (.null, rest)
      | 'N' :: 'a' :: 'N' :: rest => some (.float "NaN", rest)
      | 'I' :: 'n' :: 'f' :: 'i' :: 'n' :: 'i' :: 't' :: 'y' :: rest =>
          some (.float "Infinity", rest)
      | '-' :: 'I' :: 'n' :: 'f' :: 'i' :: 'n' :: 'i' :: 't' :: 'y' :: rest =>
          some (.float "-Infinity", rest)
      | _ => parseNumber cs

/-- Members of a JSON object, positioned at the start of a key. -/
def parseObjRest : Nat → List Char → List (String × JsonVal) →
    Option (JsonVal × List Char)
  | 0, _, _ => none
  | fuel + 1, cs, acc =>
      match cs with
      | '\"' :: rest =>
          (match parseStringBody rest [] with
          | none => none
          | some (k, r₁) =>
              match skipWs r₁ with
              | ':' :: r₂ =>
                  (match parseValue fuel (skipWs r₂) with
                  | none => none
                  | some (v, r₃) =>
                      let acc₁ := objInsert acc k v
                      match skipWs r₃ with
                      | ',' :: r₄ => parseObjRest fuel (skipWs r₄) acc₁
                      | '\x7d' :: r₄ => some (.obj acc₁, r₄)
                      | _ => none)
              | _ => none)
      | _ => none

/-- Items of a JSON array, positioned at the start of an item. -/
def parseArrRest : Nat → List Char → List JsonVal → Option (JsonVal × List Char)
  | 0, _, _ => none
  | fuel + 1, cs, acc =>
      match parseValue fuel cs with
      | none => none
      | some (v, r₁) =>
          match skipWs r₁ with
          | ',' :: r₂ => parseArrRest fuel (skipWs r₂) (acc ++ [v])
          | ']' :: r₂ => some (.arr (acc ++ [v]), r₂)
          | _ => none

end

/-- Models Python `json.loads` / `json.JSONDecoder().decode`: parse the whole
string as a single JSON value, allowing surrounding whitespace only; `none`
models the `JSONDecodeError` exception. -/
def json_loads (s : String) : Option JsonVal :=
  match parseValue (s.length + 2) (skipWs s.toList) with
  | some (v, rest) => if skipWs rest = [] then some v else none
  | none => none

/-! ## Python string helpers -/

/-- First character allowed in a Python identifier (ASCII fragment). -/
def isIdentStart (c : Char) : Bool := c.isAlpha || c = '_'

/-- Continuation character allowed in a Python identifier (ASCII fragment). -/
def isIdentCont (c : Char) : Bool := c.isAlphanum || c = '_'

/-- Models Python `str.isidentifier` for ASCII strings: non-empty, first
character a letter or underscore, the rest letters, digits or underscores. -/
def isidentifier (s : String) : Bool :=
  match s.toList with
  | [] => false
  | c :: cs => isIdentStart c && cs.all isIdentCont

/-- Models CPython `repr` of a `str` containing no quote, backslash or control
characters (the only case exercised here): the text wrapped in single quotes. -/
def pyReprStr (s : String) : String := "\x27" ++ s ++ "\x27"

/-- Models Python `str(...)` of a list of strings: `repr` of each element,
comma-separated inside square brackets. -/
def pyStrList (xs : List String) : String :=
  "[" ++ String.intercalate ", " (xs.map pyReprStr) ++ "]"

/-- Models Python `str.split` with a one-character separator: splits at every
occurrence, keeping empty fields (so the result is never empty). -/
def pySplitAux (sep : Char) : List Char → List Char → List String
  | [], acc => [String.mk acc.reverse]
  | c :: cs, acc =>
      if c = sep then String.mk acc.reverse :: pySplitAux sep cs []
      else pySplitAux sep cs (c :: acc)

/-- Split a string at every occurrence of `sep` (Python `s.split(sep)`). -/
def pySplit (sep : Char) (s : String) : List String := pySplitAux sep s.toList []

/-! ## src/action/action_decisions.py -/

/-- Python value reaching `validate_json`: either the raw assistant text (a
Python `str`) or the object produced by `json.loads` in the repair step. -/
inductive Py where
  | str (s : String)
  | val (v : JsonVal)
deriving Repr

/-- Maximum number of failed attempts before giving up
(`MAX_FAILURES` in src/action/action_decisions.py line 15). -/
def MAX_FAILURES : Nat := 100

/-- Top-level value check inside the `validate_json` loop: the value must be an
`int`, `str`, `bool` or `dict` (Python `isinstance` tests; note `bool` is also
an `int` in Python, which only widens an already-true disjunct). -/
def shallowTypeOk : JsonVal → Bool
  | .int _ => true
  | .str _ => true
  | .bool _ => true
  | .obj _ => true
  | _ => false

/-- Top-level member check of `validate_json`: every key is identifier-like and
every value has an allowed type. The recursive check on nested dicts is
commented out in the source (line 122), so members of nested dicts are not
inspected. -/
def validateItems (kvs : List (String × JsonVal)) : Bool :=
  kvs.all fun kv => isidentifier kv.1 && shallowTypeOk kv.2

/-- Models `validate_json` (src/action/action_decisions.py lines 102-132).
A `None` input returns `False`; a `dict` input is checked directly; a `str`
input is decoded with `json.JSONDecoder().decode` (the `test_response is str`
branch compares against the type object and is never taken); any exception —
decode failure, or `.items()` on a non-dict — yields `False`. -/
def validate_json : Py → Bool
  | .str s =>
      (match json_loads s with
      | some (.obj kvs) => validateItems kvs
      | _ => false)
  | .val (.obj kvs) => validateItems kvs
  | .val (.str s) =>
      (match json_loads s with
      | some (.obj kvs) => validateItems kvs
      | _ => false)
  | .val _ => false

/-- Models `extract_json_from_response` (src/action/action_decisions.py lines
134-150): take the substring from the first `\x7b` to the last `\x7d` and
parse it with `json.loads`; every failure path returns `None`. -/
def extract_json_from_response (response_text : String) : Option JsonVal :=
  let cs := response_text.toList
  match cs.findIdx? (· = '\x7b') with
  | none => none
  | some start_index =>
      match cs.reverse.findIdx? (· = '\x7d') with
      | none => none
      | some revIdx =>
          let end_index := cs.length - 1 - revIdx
          if end_index > start_index then
            json_loads (String.mk ((cs.drop start_index).take (end_index + 1 - start_index)))
          else none

/-- One gateway reply as `decide` observes it: the HTTP status code and, when
the response body has a `choices` key, the text
`choices[0].message.content`. -/
structure LLMResponse where
  status_code : Nat
  choices : Option String
deriving Repr

/-- The LLM gateway as an oracle: the reply to the `i`-th request of a retry
run, `none` modelling a transport-level failure of `llm.llm_request`. -/
def Gateway := Nat → Option LLMResponse

/-- Retry kernel of `decide` (src/action/action_decisions.py lines 59-91),
fuel-indexed so that it computes. The global `fail_counter` is threaded as
argument and first result component; the prompt assembly feeding
`llm_request` does not influence validation and is abstracted into the oracle
index. Fuel `MAX_FAILURES - fail_counter + 1` always suffices, because the
recursive call requires `fail_counter + 1 < MAX_FAILURES`; the fuel-0 branch is
unreachable from `decide`. -/
def decideGo (gw : Gateway) : Nat → Nat → Nat → Nat × Option Py
  | 0, _, fail_counter => (fail_counter, none)
  | fuel + 1, idx, fail_counter =>
      match gw idx with
      | none => (fail_counter, none)
      | some response =>
          if response.status_code ≠ 200 then (fail_counter, none)
          else
            match response.choices with
            | none => (fail_counter, none)
            | some assistant_message =>
                let repaired : Option Py :=
                  if validate_json (.str assistant_message) then some (.str assistant_message)
                  else (extract_json_from_response assistant_message).map .val
                match repaired with
                | none => (fail_counter, none)
                | some am =>
                    if validate_json am then (fail_counter, some am)
                    else
                      let fail_counter := fail_counter + 1
                      if fail_counter ≥ MAX_FAILURES then (fail_counter, none)
                      else decideGo gw fuel (idx + 1) fail_counter

/-- Models `decide` (src/action/action_decisions.py lines 20-91) started with
the given value of the module-global `fail_counter`: returns the final counter
value and the decision (`none` models every `return None` path). -/
def decide (gw : Gateway) (idx fail_counter : Nat) : Nat × Option Py :=
  decideGo gw (MAX_FAILURES - fail_counter + 1) idx fail_counter

/-! ## src/think/memory.py -/

/-- One response-history element: the dict
`\x7b"question": ..., "response": ...\x7d` stored by
`add_to_response_history`. -/
structure RespEntry where
  question : String
  response : String
deriving Repr, DecidableEq

/-- Models the Python slice `xs[-k:]` for `k ≥ 1`: the last `k` elements (all
of them when fewer). -/
def lastN {α : Type} (k : Nat) (xs : List α) : List α :=
  (xs.reverse.take k).reverse

/-- Models `count_string_tokens` (src/think/memory.py lines 12-15): character
count divided by 4. -/
def count_string_tokens (text : String) : Nat := text.length / 4

/-- Models Python `str(...)` of one response-history dict, for strings without
quote, backslash or control characters. -/
def pyStrEntry (e : RespEntry) : String :=
  "\x7b\x27question\x27: " ++ pyReprStr e.question ++ ", \x27response\x27: "
    ++ pyReprStr e.response ++ "\x7d"

/-- Models Python `str(...)` of the loaded response-history list. -/
def pyStrHistory (h : List RespEntry) : String :=
  "[" ++ String.intercalate ", " (h.map pyStrEntry) ++ "]"

/-- Models `chunk_text` (src/think/memory.py lines 45-60): split on single
spaces, then greedily grow a chunk while `count_string_tokens` of the chunk
concatenated with the next part stays within `max_tokens`. -/
def chunk_text (text : String) (max_tokens : Nat := 3000) : List String :=
  let step : List String × String → String → List String × String :=
    fun state message =>
      if count_string_tokens (state.2 ++ message) ≤ max_tokens then
        (state.1, state.2 ++ " " ++ message)
      else (state.1 ++ [state.2], message)
  let final := (pySplit ' ' text).foldl step ([], "")
  final.1 ++ [final.2]

/-- The chunk summarizer `summarize_text` abstracted as an oracle: `none`
models the call raising an exception. -/
def Summarizer := String → Option String

/-- Models `summarize_chunks` (src/think/memory.py lines 62-72): summarize each
chunk, substituting the raw chunk when summarization fails. -/
def summarize_chunks (summarizer : Summarizer) (chunks : List String) : List String :=
  chunks.map fun chunk => (summarizer chunk).getD chunk

/-- Return value of the history getters, which produce either the raw loaded
list or a string (placeholder or summarized text). -/
inductive HistoryResult (α : Type) where
  | raw (entries : List α)
  | text (s : String)
deriving Repr, DecidableEq

/-- Models `get_conversation_history` (src/think/memory.py lines 100-120) with
the file load abstracted as the `conversation_history` argument (entries are
the strings appended by `simple_telegram`). -/
def get_conversation_history (summarizer : Summarizer)
    (conversation_history : List String) : HistoryResult String :=
  if conversation_history.length = 0 then .text "There is no conversation history."
  else
    let tokens := count_string_tokens (pyStrList conversation_history)
    if tokens > 3000 then
      .text (String.intercalate " "
          (summarize_chunks summarizer (chunk_text (pyStrList conversation_history)))
        ++ " " ++ String.intercalate " " (lastN 6 conversation_history))
    else .raw conversation_history

/-- Models `get_response_history` (src/think/memory.py lines 152-173): above
500 approximate tokens the chunk summaries are joined with spaces; the line
appending the last raw entries is commented out in the source (line 166), so
nothing is appended after the summaries. -/
def get_response_history (summarizer : Summarizer)
    (response_history : List RespEntry) : HistoryResult RespEntry :=
  if response_history.length = 0 then .text "There is no previous response history."
  else
    let tokens := count_string_tokens (pyStrHistory response_history)
    if tokens > 500 then
      .text (String.intercalate " "
          (summarize_chunks summarizer (chunk_text (pyStrHistory response_history))))
    else .raw response_history

/-- Models `get_thought_history` (src/think/memory.py lines 201-221): above 200
approximate tokens the joined chunk summaries are followed by the last 3 raw
entries joined with spaces (entries are the serialized `Thought` JSON
strings). -/
def get_thought_history (summarizer : Summarizer)
    (thought_history : List String) : HistoryResult String :=
  if thought_history.length = 0 then .text "There is no thought history."
  else
    let tokens := count_string_tokens (pyStrList thought_history)
    if tokens > 200 then
      .text (String.intercalate " "
          (summarize_chunks summarizer (chunk_text (pyStrList thought_history)))
        ++ " " ++ String.intercalate " " (lastN 3 thought_history))
    else .raw thought_history

/-- Models `add_to_response_history` (src/think/memory.py lines 190-199) as a
pure list transform (load/save of the backing file abstracted as
argument/result): append the new entry, then keep the last 20 when the cap is
exceeded. -/
def add_to_response_history (response_history : List RespEntry)
    (question response : String) : List RespEntry :=
  let h := response_history ++ [⟨question, response⟩]
  if h.length > 20 then lastN 20 h else h

/-- Models the trim in `save_thought_history` (src/think/memory.py lines
234-241): keep the last 10 entries when the cap is exceeded. -/
def save_thought_history (history : List String) : List String :=
  if history.length > 10 then lastN 10 history else history

/-- Models `save_thought` (src/think/memory.py lines 259-289) as a pure list
transform: the serialized `Thought` JSON (whose summary comes from the
Gateway) is abstracted as the appended element `new_thought`; the list is
trimmed to the last 10 before the append, then appended to, then saved through
`save_thought_history` which trims again. -/
def save_thought (history : List String) (new_thought : String) : List String :=
  let h := if history.length > 10 then lastN 10 history else history
  save_thought_history (h ++ [new_thought])

/-! ## src/utils/llm.py -/

/-- One role-tagged message of a gateway request. -/
structure Message where
  role : String
  content : String
deriving Repr, DecidableEq

/-- Models `build_context` (src/utils/llm.py lines 283-310) with the
`memory.load_memories()` file read abstracted as the `memories` argument.
Entries are the strings the callers pass (Python truthiness of a string is
non-emptiness; `str` of a string is itself): a `Context:` block from
`conversation_history`, then a `Messages:` block from `message_history`, then a
`Memories:` block, all concatenated into at most one trailing user message. -/
def build_context (history : List Message) (conversation_history : List String)
    (message_history : List String) (memories : List String) : List Message :=
  let context := ""
  let context :=
    if conversation_history ≠ [] then
      conversation_history.foldl
        (fun ctx convo => if convo ≠ "" then ctx ++ convo else ctx)
        (context ++ "Context:\n")
    else context
  let context :=
    if message_history ≠ [] then
      message_history.foldl
        (fun ctx message => if message ≠ "" then ctx ++ message else ctx)
        (context ++ "\nMessages:\n")
    else context
  let context :=
    if memories ≠ [] then
      memories.foldl (fun ctx mem => ctx ++ mem) (context ++ "\nMemories:\n")
    else context
  if context ≠ "" then history ++ [⟨"user", context⟩] else history

/-! ## src/action/action_execute.py -/

/-- The four file-backed logs of src/think/memory.py, threaded as explicit
state. -/
structure MemoryState where
  thought_history : List String
  response_history : List RespEntry
  conversation_history : List String
  memories : List String
deriving Repr, DecidableEq

/-- External collaborators of `take_action`, abstracted as oracles: the
blocking Telegram `ask_user`, the `web_search` digest (that function catches
its own exceptions and always returns a string), and the summarizer used by
`memory.get_response_history`. -/
structure Effects where
  ask_user : String → String
  web_search : String → String
  summarizer : Summarizer

/-- Python `d[k]` on a decoded JSON value: `none` models the `KeyError` or
`TypeError` raised when the key is missing or the value is not a dict. -/
def objGet : JsonVal → String → Option JsonVal
  | .obj kvs, k => (kvs.find? fun kv => kv.1 == k).map Prod.snd
  | _, _ => none

/-- View a decoded JSON value as a Python `str`, if it is one. -/
def JsonVal.asStr : JsonVal → Option String
  | .str s => some s
  | _ => none

/-- Models Python `str(...)` of what `memory.get_response_history()` returned:
the list form for a raw result, the string itself otherwise. -/
def historyResultStr : HistoryResult RespEntry → String
  | .raw l => pyStrHistory l
  | .text s => s

/-- Models `take_action` (src/action/action_execute.py lines 21-117) as a
transform of the memory state and of the module-global `fail_counter` of
action_execute (distinct from the counter in action_decisions). Every caught
exception path — undecodable JSON, missing `command`/`name`/`args` keys,
missing or non-string argument values — leaves the state unchanged (`none`
lookups). The unknown-action branch returns before the counter reset. Telegram
sends, debug dumps and logging have no effect on the modelled state. -/
def take_action (eff : Effects) (mem : MemoryState) (fail_counter : Nat)
    (assistant_message : String) : MemoryState × Nat :=
  let reset := fun (n : Nat) => if n > 0 then 0 else n
  match json_loads assistant_message with
  | none => (mem, fail_counter)
  | some command =>
      match objGet command "command" with
      | none => (mem, fail_counter)
      | some cmd =>
          match objGet cmd "name", objGet cmd "args" with
          | some action, some content =>
              (match action with
              | .str a =>
                  if a = "ask_user" then
                    match (objGet content "message").bind JsonVal.asStr with
                    | none => (mem, fail_counter)
                    | some message =>
                        let user_response :=
                          "The user\x27s answer: \x27" ++ eff.ask_user message ++ "\x27"
                        let rh :=
                          add_to_response_history mem.response_history message user_response
                        ({ mem with response_history := rh }, reset fail_counter)
                  else if a = "send_message" ∨ a = "send_log" then
                    match (objGet content "message").bind JsonVal.asStr with
                    | none => (mem, fail_counter)
                    | some message =>
                        let rh :=
                          add_to_response_history mem.response_history message "No response."
                        ({ mem with response_history := rh }, reset fail_counter)
                  else if a = "web_search" then
                    match (objGet content "query").bind JsonVal.asStr with
                    | none => (mem, fail_counter)
                    | some query =>
                        let rh := add_to_response_history mem.response_history
                          ("called web_search: " ++ query) (eff.web_search query)
                        ({ mem with response_history := rh }, reset fail_counter)
                  else if a = "conversation_history" then
                    let conversation_history := "Previous conversation: "
                      ++ historyResultStr
                          (get_response_history eff.summarizer mem.response_history)
                    let rh := add_to_response_history mem.response_history
                      "called conversation_history" conversation_history
                    ({ mem with response_history := rh }, reset fail_counter)
                  else (mem, fail_counter)
              | _ => (mem, fail_counter))
          | _, _ => (mem, fail_counter)

/-! ## Spec-side validator (for comparison with `validate_json`) -/

mutual

/-- Modelled from the spec: the validator the spec describes, accepting a value
only if every key at every nesting level is identifier-like and every value at
every nesting level is an integer, string, boolean or object (arrays rejected
at any depth). Defined from the spec words for comparison with the
source-derived `validate_json`. -/
def specDeepValidate : JsonVal → Bool
  | .obj kvs => specDeepMembers kvs
  | _ => false

/-- Member list check of the spec-side validator. -/
def specDeepMembers : List (String × JsonVal) → Bool
  | [] => true
  | (k, v) :: rest => isidentifier k && specDeepValue v && specDeepMembers rest

/-- Value check of the spec-side validator: integers, strings, booleans, and
objects whose members again satisfy the check. -/
def specDeepValue : JsonVal → Bool
  | .int _ => true
  | .str _ => true
  | .bool _ => true
  | .obj kvs => specDeepMembers kvs
  | _ => false

end

/-! ## Concrete inputs used in the theorems -/

/-- Assistant text that parses to JSON after brace extraction but fails
validation (the key is not identifier-like). -/
def badDecisionText : String := "\x7b\"bad key\": 1\x7d"

/-- Value that `json.loads` produces from `badDecisionText`. -/
def badDecisionVal : JsonVal := .obj [("bad key", .int 1)]

/-- Assistant text that validates directly. -/
def goodDecisionText : String := "\x7b\"command\": \x7b\x7d\x7d"

/-- Assistant text containing no braces, so brace extraction fails. -/
def noJsonText : String := "I cannot answer that."

/-- Gateway that always answers 200 with `badDecisionText`. -/
def gwAlwaysBad : Gateway := fun _ => some ⟨200, some badDecisionText⟩

/-- Gateway whose first answer is `badDecisionText` and whose later answers are
`goodDecisionText`. -/
def gwFailThenGood : Gateway := fun i =>
  if i = 0 then some ⟨200, some badDecisionText⟩ else some ⟨200, some goodDecisionText⟩

/-- Gateway that always answers 200 with text containing no braces. -/
def gwNoJson : Gateway := fun _ => some ⟨200, some noJsonText⟩

/-- The repair-test input of the spec (testable property 3). -/
def C5_input : String :=
  "here is my answer: \x7b\"command\":\x7b\"name\":\"send_message\",\"args\":\x7b\"message\":\"hi\"\x7d\x7d\x7d thanks"

/-- The command envelope embedded in `C5_input`. -/
def C5_envelope : JsonVal :=
  .obj [("command", .obj [("name", .str "send_message"),
                          ("args", .obj [("message", .str "hi")])])]

/-- Gateway that always answers 200 with `C5_input`. -/
def gwC5 : Gateway := fun _ => some ⟨200, some C5_input⟩

/-- Parsed value with an array nested inside an object value: `validate_json`
accepts it, the spec-side validator rejects it. -/
def nestedArrayVal : JsonVal := .obj [("command", .obj [("name", .arr [.str "x"])])]

/-- Summarizer oracle that returns `"S"` for every chunk. -/
def constS : Summarizer := fun _ => some "S"

/-- A 2010-character string, making one response entry cross the 500-token
summarization threshold. -/
def longA : String := String.mk (List.replicate 2010 'a')

/-- Response history whose serialized form exceeds 500 approximate tokens. -/
def rhLong : List RespEntry := [⟨longA, "r"⟩]

/-- A 900-character string, taking a one-entry thought history over the
200-token threshold. -/
def longB : String := String.mk (List.replicate 900 'b')

/-- A 12100-character string, taking a one-entry conversation history over the
3000-token threshold. -/
def longC : String := String.mk (List.replicate 12100 'c')

/-- An unimplemented-command message for the dispatcher. -/
def unknownActionMsg : String :=
  "\x7b\"command\": \x7b\"name\": \"dance\", \"args\": \x7b\x7d\x7d\x7d"

/-- Trivial effect oracles for concrete dispatcher runs. -/
def effU : Effects := ⟨fun _ => "", fun _ => "", fun _ => none⟩

/-- A small non-empty memory state for concrete dispatcher runs. -/
def memU : MemoryState := ⟨["t"], [⟨"q", "r"⟩], ["c"], ["m"]⟩

/-! ## Helper lemmas -/

theorem lastN_length {α : Type} (k : Nat) (xs : List α) :
    (lastN k xs).length = min k xs.length := by
  simp [lastN]

theorem lastN_of_length_le {α : Type} (k : Nat) (xs : List α) (h : xs.length ≤ k) :
    lastN k xs = xs := by
  unfold lastN
  rw [List.take_of_length_le (by simpa using h), List.reverse_reverse]

theorem lastN_append_lastN {α : Type} (k : Nat) (xs ys : List α) :
    lastN k (lastN k xs ++ ys) = lastN k (xs ++ ys) := by
  simp only [lastN, List.reverse_append, List.reverse_reverse,
    List.take_append_eq_append_take, List.take_take, List.length_reverse]
  rw [Nat.min_eq_left (Nat.sub_le k ys.length)]

theorem add_to_response_history_eq (h : List RespEntry) (q r : String)
    (hlen : h.length ≤ 20) :
    add_to_response_history h q r = lastN 20 (h ++ [⟨q, r⟩]) := by
  simp only [add_to_response_history]
  split
  · rfl
  · next hgt =>
      refine (lastN_of_length_le _ _ ?_).symm
      simp only [List.length_append, List.length_cons, List.length_nil] at hgt ⊢
      omega

theorem save_thought_eq (h : List String) (t : String) (hlen : h.length ≤ 10) :
    save_thought h t = lastN 10 (h ++ [t]) := by
  have h1 : (if h.length > 10 then lastN 10 h else h) = h := if_neg (by omega)
  simp only [save_thought, save_thought_history, h1]
  split
  · rfl
  · next hgt =>
      refine (lastN_of_length_le _ _ ?_).symm
      simp only [List.length_append, List.length_cons, List.length_nil] at hgt ⊢
      omega

theorem foldl_capped {α : Type} (k : Nat) (f : List α → α → List α)
    (hf : ∀ h e, h.length ≤ k → f h e = lastN k (h ++ [e])) :
    ∀ (es : List α) (h : List α), h.length ≤ k → es.foldl f h = lastN k (h ++ es) := by
  intro es
  induction es with
  | nil => intro h hh; simp [lastN_of_length_le k h hh]
  | cons e es ih =>
      intro h hh
      rw [List.foldl_cons, hf h e hh,
        ih (lastN k (h ++ [e])) (by rw [lastN_length]; omega),
        lastN_append_lastN]
      simp

theorem decideGo_success_step (gw : Gateway) (fuel idx fc : Nat) (u : String)
    (h1 : gw idx = some ⟨200, some u⟩) (h2 : validate_json (Py.str u) = true) :
    decideGo gw (fuel + 1) idx fc = (fc, some (Py.str u)) := by
  simp [decideGo, h1, h2]

theorem decideGo_unparsable_step (gw : Gateway) (fuel idx fc : Nat) (t : String)
    (h1 : gw idx = some ⟨200, some t⟩)
    (h2 : validate_json (Py.str t) = false)
    (h3 : extract_json_from_response t = none) :
    decideGo gw (fuel + 1) idx fc = (fc, none) := by
  simp [decideGo, h1, h2, h3]

theorem decideGo_fail_step (gw : Gateway) (fuel idx fc : Nat) (t : String) (v : JsonVal)
    (h1 : gw idx = some ⟨200, some t⟩)
    (h2 : validate_json (Py.str t) = false)
    (h3 : extract_json_from_response t = some v)
    (h4 : validate_json (Py.val v) = false)
    (h5 : fc + 1 < MAX_FAILURES) :
    decideGo gw (fuel + 1) idx fc = decideGo gw fuel (idx + 1) (fc + 1) := by
  simp [decideGo, h1, h2, h3, h4, Nat.not_le.mpr h5]

theorem decideGo_giveup_step (gw : Gateway) (fuel idx fc : Nat) (t : String) (v : JsonVal)
    (h1 : gw idx = some ⟨200, some t⟩)
    (h2 : validate_json (Py.str t) = false)
    (h3 : extract_json_from_response t = some v)
    (h4 : validate_json (Py.val v) = false)
    (h5 : fc + 1 ≥ MAX_FAILURES) :
    decideGo gw (fuel + 1) idx fc = (fc + 1, none) := by
  simp [decideGo, h1, h2, h3, h4, h5]

theorem decideGo_always_bad (gw : Gateway)
    (hgw : ∀ i, ∃ t v, gw i = some ⟨200, some t⟩ ∧ validate_json (Py.str t) = false
      ∧ extract_json_from_response t = some v ∧ validate_json (Py.val v) = false) :
    ∀ (n idx fc : Nat), fc + n + 1 = MAX_FAILURES →
      decideGo gw (n + 2) idx fc = (MAX_FAILURES, none) := by
  intro n
  induction n with
  | zero =>
      intro idx fc hfc
      obtain ⟨t, v, h1, h2, h3, h4⟩ := hgw idx
      rw [decideGo_giveup_step gw 1 idx fc t v h1 h2 h3 h4 (by omega)]
      have hfc1 : fc + 1 = MAX_FAILURES := by omega
      rw [hfc1]
  | succ n ih =>
      intro idx fc hfc
      obtain ⟨t, v, h1, h2, h3, h4⟩ := hgw idx
      rw [decideGo_fail_step gw (n + 2) idx fc t v h1 h2 h3 h4 (by omega)]
      exact ih (idx + 1) (fc + 1) (by omega)

theorem take_action_counter (eff : Effects) (mem : MemoryState) (efc : Nat) (msg : String) :
    (take_action eff mem efc msg).2 = 0 ∨ (take_action eff mem efc msg).2 = efc := by
  unfold take_action
  repeat' split
  all_goals simp

/-! ## Claim theorems -/

/-- C1: if the Gateway always returns text from which no valid command JSON can
be obtained (brace extraction parses, validation still fails), `decide`
started with a zero failure counter stops retrying after exactly the
configured maximum failure count `MAX_FAILURES = 100` validation failures and
returns no decision instead of recursing indefinitely. -/
theorem C1_retry_bound (gw : Gateway)
    (hgw : ∀ i, ∃ t v, gw i = some ⟨200, some t⟩ ∧ validate_json (Py.str t) = false
      ∧ extract_json_from_response t = some v ∧ validate_json (Py.val v) = false)
    (idx : Nat) :
    decide gw idx 0 = (MAX_FAILURES, none) ∧ MAX_FAILURES = 100 := by
  refine ⟨?_, rfl⟩
  have h : MAX_FAILURES - 0 + 1 = 99 + 2 := rfl
  rw [decide, h]
  exact decideGo_always_bad gw hgw 99 idx 0 rfl

/-- Witness for C1 at the concrete always-bad gateway. -/
theorem C1_retry_bound_witness : decide gwAlwaysBad 0 0 = (MAX_FAILURES, none) :=
  (C1_retry_bound gwAlwaysBad
    (fun _ => ⟨badDecisionText, badDecisionVal, rfl, rfl, rfl, rfl⟩) 0).1

/-- C10: when the assistant text fails validation and no parsable JSON object
can be extracted from it, `decide` returns `none` immediately, leaving the
process-wide failure counter unchanged and performing no retry. -/
theorem C10_no_extractable_json (gw : Gateway) (idx fc : Nat) (t : String)
    (h1 : gw idx = some ⟨200, some t⟩)
    (h2 : validate_json (Py.str t) = false)
    (h3 : extract_json_from_response t = none) :
    decide gw idx fc = (fc, none) := by
  rw [decide]
  exact decideGo_unparsable_step gw (MAX_FAILURES - fc) idx fc t h1 h2 h3

/-- Witness for C10 at a brace-free gateway answer and a non-zero counter. -/
theorem C10_no_extractable_json_witness : decide gwNoJson 0 5 = (5, none) :=
  C10_no_extractable_json gwNoJson 0 5 noJsonText rfl rfl rfl

/-- Counterexample to C2 as stated: after one validation failure followed by a
successful validation, `decide` returns the envelope with the failure counter
still at 1 — it is not reset to zero on the first subsequent success. -/
theorem C2_counterexample :
    decide gwFailThenGood 0 0 = (1, some (Py.str goodDecisionText)) ∧ (1 : Nat) ≠ 0 :=
  ⟨rfl, by decide⟩

/-- C2 (amended): the decision failure counter increases by one on every
validation failure of a repaired-but-still-invalid response and the retry loop
halts once it reaches the configured maximum; however, a subsequent successful
validation returns the envelope with the incremented counter retained — the
counter is never reset on success, because the reset in `take_action` touches
the separate `fail_counter` global of action_execute, which is only ever reset
to zero or left unchanged and never incremented. -/
theorem C2_amended_failure_counter (gw : Gateway) (idx fc : Nat) (t u : String)
    (v : JsonVal)
    (h1 : gw idx = some ⟨200, some t⟩) (h2 : validate_json (Py.str t) = false)
    (h3 : extract_json_from_response t = some v) (h4 : validate_json (Py.val v) = false)
    (h5 : gw (idx + 1) = some ⟨200, some u⟩) (h6 : validate_json (Py.str u) = true) :
    (fc + 1 < MAX_FAILURES → decide gw idx fc = (fc + 1, some (Py.str u)))
    ∧ (fc + 1 ≥ MAX_FAILURES → decide gw idx fc = (fc + 1, none))
    ∧ ∀ (eff : Effects) (mem : MemoryState) (efc : Nat) (msg : String),
        (take_action eff mem efc msg).2 = 0 ∨ (take_action eff mem efc msg).2 = efc := by
  refine ⟨?_, ?_, fun eff mem efc msg => take_action_counter eff mem efc msg⟩
  · intro hlt
    rw [decide, decideGo_fail_step gw (MAX_FAILURES - fc) idx fc t v h1 h2 h3 h4 hlt]
    have hfuel : MAX_FAILURES - fc = (MAX_FAILURES - fc - 1) + 1 := by omega
    rw [hfuel, decideGo_success_step gw _ _ _ u h5 h6]
  · intro hge
    rw [decide, decideGo_giveup_step gw (MAX_FAILURES - fc) idx fc t v h1 h2 h3 h4 hge]

/-- Witness for the amended C2 at the concrete fail-then-good gateway. -/
theorem C2_amended_failure_counter_witness :
    decide gwFailThenGood 0 0 = (0 + 1, some (Py.str goodDecisionText)) :=
  (C2_amended_failure_counter gwFailThenGood 0 0 badDecisionText goodDecisionText
    badDecisionVal rfl rfl rfl rfl rfl rfl).1 (by decide)

/-- C5: for the spec's wrapped-JSON input, brace extraction recovers the inner
object, `validate_json` accepts it, and `decide` returns that command envelope
(with the failure counter untouched) rather than a failure. -/
theorem C5_repair_recovers (gw : Gateway) (idx fc : Nat)
    (h : gw idx = some ⟨200, some C5_input⟩) :
    extract_json_from_response C5_input = some C5_envelope
    ∧ validate_json (Py.val C5_envelope) = true
    ∧ decide gw idx fc = (fc, some (Py.val C5_envelope)) := by
  refine ⟨rfl, rfl, ?_⟩
  have h2 : validate_json (Py.str C5_input) = false := rfl
  have h3 : extract_json_from_response C5_input = some C5_envelope := rfl
  have h4 : validate_json (Py.val C5_envelope) = true := rfl
  rw [decide]
  simp [decideGo, h, h2, h3, h4]

/-- Witness for C5 at the constant gateway returning the spec input. -/
theorem C5_repair_recovers_witness :
    decide gwC5 0 0 = (0, some (Py.val C5_envelope)) :=
  (C5_repair_recovers gwC5 0 0 rfl).2.2

/-- C3: after any sequence of more than cap many store operations starting
from an empty log, the stored collection has exactly cap entries — the most
recent cap insertions in their original relative order (strictly FIFO, oldest
evicted first): cap 20 for `add_to_response_history`, cap 10 for
`save_thought`. -/
theorem C3_bounded_fifo (es : List RespEntry) (ts : List String)
    (hes : es.length > 20) (hts : ts.length > 10) :
    es.foldl (fun h e => add_to_response_history h e.question e.response) [] = lastN 20 es
    ∧ (es.foldl (fun h e => add_to_response_history h e.question e.response) []).length = 20
    ∧ ts.foldl save_thought [] = lastN 10 ts
    ∧ (ts.foldl save_thought []).length = 10 := by
  have hresp : es.foldl (fun h e => add_to_response_history h e.question e.response) []
      = lastN 20 es := by
    have h := foldl_capped 20 (fun h e => add_to_response_history h e.question e.response)
      (fun h e hh => by simpa using add_to_response_history_eq h e.question e.response hh)
      es [] (by simp)
    simpa using h
  have hth : ts.foldl save_thought [] = lastN 10 ts := by
    have h := foldl_capped 10 save_thought (fun h e hh => save_thought_eq h e hh)
      ts [] (by simp)
    simpa using h
  refine ⟨hresp, ?_, hth, ?_⟩
  · rw [hresp, lastN_length]; omega
  · rw [hth, lastN_length]; omega

/-- Witness for C3 at concrete 21-entry and 11-entry insertion sequences. -/
theorem C3_bounded_fifo_witness :
    (List.replicate 21 (⟨"q", "r"⟩ : RespEntry)).length > 20
    ∧ (List.replicate 11 "t").length > 10
    ∧ ((List.replicate 21 (⟨"q", "r"⟩ : RespEntry)).foldl
        (fun h e => add_to_response_history h e.question e.response) []).length = 20
    ∧ ((List.replicate 11 "t").foldl save_thought []).length = 10 := by
  have h := C3_bounded_fifo (List.replicate 21 ⟨"q", "r"⟩) (List.replicate 11 "t")
    (by simp) (by simp)
  exact ⟨by simp, by simp, h.2.1, h.2.2.2⟩

/-- Counterexample to C4 as stated: `validate_json` accepts a parsed value
containing an array nested inside an object value, which the spec-described
deep validator rejects. -/
theorem C4_counterexample :
    validate_json (Py.val nestedArrayVal) = true
    ∧ specDeepValidate nestedArrayVal = false :=
  ⟨rfl, rfl⟩

/-- C4 (amended): `validate_json` checks only the top nesting level — a parsed
dict is accepted iff every top-level key is identifier-like and every
top-level value is an integer, string, boolean or dict; a top-level array or
other non-dict value is rejected, but the contents of nested dicts are never
inspected, so arrays nested below the top level are accepted. -/
theorem C4_amended_shallow_validator :
    (∀ kvs, validate_json (Py.val (.obj kvs))
        = kvs.all fun kv => isidentifier kv.1 && shallowTypeOk kv.2)
    ∧ (∀ xs, validate_json (Py.val (.arr xs)) = false)
    ∧ validate_json (Py.val .null) = false
    ∧ validate_json (Py.val nestedArrayVal) = true :=
  ⟨fun _ => rfl, fun _ => rfl, rfl, rfl⟩

/-- C6: `build_context` with long-term summaries `["A"]`, recent entries
`["B"]` and stored memories `["C"]` appends exactly one trailing user message
whose text is `"Context:\nA\nMessages:\nB\nMemories:\nC"`; with all three
inputs empty, no context message is appended at all. -/
theorem C6_context_assembly (history : List Message) :
    build_context history ["A"] ["B"] ["C"]
      = history ++ [⟨"user", "Context:\nA\nMessages:\nB\nMemories:\nC"⟩]
    ∧ build_context history [] [] [] = history :=
  ⟨rfl, rfl⟩

/-- C9: for a decoded command envelope whose command name is not in the closed
set ask_user, send_message, send_log, web_search, conversation_history,
`take_action` returns normally (the unimplemented action is only logged, the
error swallowed) with the whole memory state — in particular the response
history — and the action_execute failure counter unchanged. -/
theorem C9_unknown_action (eff : Effects) (mem : MemoryState) (efc : Nat)
    (msg name : String) (env cmd args : JsonVal)
    (hp : json_loads msg = some env)
    (hc : objGet env "command" = some cmd)
    (hn : objGet cmd "name" = some (.str name))
    (ha : objGet cmd "args" = some args)
    (_hval : validate_json (Py.str msg) = true)
    (h1 : name ≠ "ask_user") (h2 : name ≠ "send_message") (h3 : name ≠ "send_log")
    (h4 : name ≠ "web_search") (h5 : name ≠ "conversation_history") :
    take_action eff mem efc msg = (mem, efc) := by
  unfold take_action
  simp [hp, hc, hn, ha, h1, h2, h3, h4, h5]

/-- Witness for C9 at a concrete `dance` command. -/
theorem C9_unknown_action_witness :
    take_action effU memU 7 unknownActionMsg = (memU, 7) :=
  C9_unknown_action effU memU 7 unknownActionMsg "dance"
    (.obj [("command", .obj [("name", .str "dance"), ("args", .obj [])])])
    (.obj [("name", .str "dance"), ("args", .obj [])])
    (.obj [])
    rfl rfl rfl rfl rfl (by decide) (by decide) (by decide) (by decide) (by decide)

theorem intercalate_singleton (sep x : String) : String.intercalate sep [x] = x := rfl

theorem append_chars (s t : String) (P : Char → Prop)
    (hs : ∀ c ∈ s.data, P c) (ht : ∀ c ∈ t.data, P c) :
    ∀ c ∈ (s ++ t).data, P c := by
  intro c hc
  rw [String.data_append] at hc
  rcases List.mem_append.mp hc with h | h
  · exact hs c h
  · exact ht c h

theorem mem_summarize_chunks_constS (l : List String) :
    ∀ x ∈ summarize_chunks constS l, x = "S" := by
  intro x hx
  simp only [summarize_chunks, constS, Option.getD_some, List.mem_map] at hx
  obtain ⟨a, _, h⟩ := hx
  exact h.symm

theorem joinS_go_chars :
    ∀ (as : List String) (acc : String), (∀ x ∈ as, x = "S") →
      (∀ c ∈ acc.data, c = 'S' ∨ c = ' ') →
      ∀ c ∈ (String.intercalate.go acc " " as).data, c = 'S' ∨ c = ' ' := by
  intro as
  induction as with
  | nil => intro acc _ hacc; simpa [String.intercalate.go] using hacc
  | cons b bs ih =>
      intro acc hall hacc
      rw [String.intercalate.go]
      refine ih (acc ++ " " ++ b) (fun x hx => hall x (List.mem_cons_of_mem _ hx)) ?_
      have hb : b = "S" := hall b (List.mem_cons_self b bs)
      refine append_chars _ _ _ (append_chars _ _ _ hacc (by decide)) ?_
      rw [hb]; decide

theorem joinS_chars (l : List String) (hl : ∀ x ∈ l, x = "S") :
    ∀ c ∈ (String.intercalate " " l).data, c = 'S' ∨ c = ' ' := by
  match l with
  | [] => decide
  | a :: as =>
      rw [String.intercalate]
      refine joinS_go_chars as a (fun x hx => hl x (List.mem_cons_of_mem _ hx)) ?_
      have ha : a = "S" := hl a (List.mem_cons_self a as)
      rw [ha]; decide

theorem joined_not_entry_suffix (l : List String) (hl : ∀ x ∈ l, x = "S")
    (q r : String) :
    ¬ ∃ pre, String.intercalate " " l = pre ++ pyStrEntry ⟨q, r⟩ := by
  rintro ⟨pre, hpre⟩
  have hsplit : pyStrEntry ⟨q, r⟩
      = ("\x7b\x27question\x27: " ++ pyReprStr q ++ ", \x27response\x27: "
          ++ pyReprStr r) ++ "\x7d" := rfl
  have hmem : '\x7d' ∈ (String.intercalate " " l).data := by
    rw [hpre, hsplit, ← String.append_assoc, String.data_append]
    apply List.mem_append_right
    decide
  rcases joinS_chars l hl _ hmem with h | h <;> revert h <;> decide

theorem pyStrEntry_longA_length : (pyStrEntry ⟨longA, "r"⟩).length = 2043 := by
  simp only [pyStrEntry, pyReprStr, longA, String.length_append, String.length_mk,
    List.length_replicate]
  decide

theorem pyStrHistory_rhLong_length : (pyStrHistory rhLong).length = 2045 := by
  have h : pyStrHistory rhLong = "[" ++ pyStrEntry ⟨longA, "r"⟩ ++ "]" := rfl
  rw [h, String.length_append, String.length_append, pyStrEntry_longA_length]
  decide

theorem rhLong_over_threshold : count_string_tokens (pyStrHistory rhLong) > 500 := by
  unfold count_string_tokens
  rw [pyStrHistory_rhLong_length]
  decide

theorem longB_tokens : count_string_tokens (pyStrList [longB]) > 200 := by
  have h : pyStrList [longB] = "[" ++ ("\x27" ++ longB ++ "\x27") ++ "]" := rfl
  unfold count_string_tokens
  rw [h]
  simp only [longB, String.length_append, String.length_mk, List.length_replicate]
  decide

theorem longC_tokens : count_string_tokens (pyStrList [longC]) > 3000 := by
  have h : pyStrList [longC] = "[" ++ ("\x27" ++ longC ++ "\x27") ++ "]" := rfl
  unfold count_string_tokens
  rw [h]
  simp only [longC, String.length_append, String.length_mk, List.length_replicate]
  decide

/-- Counterexample to C7 as stated: a response history over the 500-token
threshold whose summarized text (here produced by a summarizer that answers
`"S"` for every chunk) does not end with the verbatim last raw entry — the
append of the last raw entries is commented out in `get_response_history`. -/
theorem C7_counterexample :
    count_string_tokens (pyStrHistory rhLong) > 500
    ∧ ∃ s, get_response_history constS rhLong = .text s
        ∧ ¬ ∃ pre, s = pre ++ pyStrEntry ⟨longA, "r"⟩ := by
  refine ⟨rhLong_over_threshold,
    String.intercalate " " (summarize_chunks constS (chunk_text (pyStrHistory rhLong))),
    ?_, ?_⟩
  · simp only [get_response_history]
    rw [if_neg (by decide), if_pos rhLong_over_threshold]
  · exact joined_not_entry_suffix _ (mem_summarize_chunks_constS _) longA "r"

/-- C7 (amended): above threshold, the thought-history getter appends the last
3 raw entries and the conversation-history getter the last 6 after the joined
chunk summaries, so their results end with the verbatim raw tail; the
response-history getter returns the joined chunk summaries alone (its
raw-tail append is commented out in the source). -/
theorem C7_amended_recency (summarizer : Summarizer) (th ch : List String)
    (rh : List RespEntry)
    (hth₀ : th ≠ []) (hth : count_string_tokens (pyStrList th) > 200)
    (hch₀ : ch ≠ []) (hch : count_string_tokens (pyStrList ch) > 3000)
    (hrh₀ : rh ≠ []) (hrh : count_string_tokens (pyStrHistory rh) > 500) :
    (∃ pre, get_thought_history summarizer th
        = .text (pre ++ String.intercalate " " (lastN 3 th)))
    ∧ (∃ pre, get_conversation_history summarizer ch
        = .text (pre ++ String.intercalate " " (lastN 6 ch)))
    ∧ get_response_history summarizer rh
        = .text (String.intercalate " "
            (summarize_chunks summarizer (chunk_text (pyStrHistory rh)))) := by
  have hth1 : get_thought_history summarizer th
      = .text (String.intercalate " "
          (summarize_chunks summarizer (chunk_text (pyStrList th)))
        ++ " " ++ String.intercalate " " (lastN 3 th)) := by
    simp only [get_thought_history]
    rw [if_neg (fun h => hth₀ (List.length_eq_zero.mp h)), if_pos hth]
  have hch1 : get_conversation_history summarizer ch
      = .text (String.intercalate " "
          (summarize_chunks summarizer (chunk_text (pyStrList ch)))
        ++ " " ++ String.intercalate " " (lastN 6 ch)) := by
    simp only [get_conversation_history]
    rw [if_neg (fun h => hch₀ (List.length_eq_zero.mp h)), if_pos hch]
  have hrh1 : get_response_history summarizer rh
      = .text (String.intercalate " "
          (summarize_chunks summarizer (chunk_text (pyStrHistory rh)))) := by
    simp only [get_response_history]
    rw [if_neg (fun h => hrh₀ (List.length_eq_zero.mp h)), if_pos hrh]
  exact ⟨⟨_, hth1⟩, ⟨_, hch1⟩, hrh1⟩

/-- Witness for the amended C7 at concrete over-threshold histories. -/
theorem C7_amended_recency_witness :
    (∃ pre, get_thought_history constS [longB]
        = .text (pre ++ String.intercalate " " (lastN 3 [longB])))
    ∧ (∃ pre, get_conversation_history constS [longC]
        = .text (pre ++ String.intercalate " " (lastN 6 [longC])))
    ∧ get_response_history constS rhLong
        = .text (String.intercalate " "
            (summarize_chunks constS (chunk_text (pyStrHistory rhLong)))) :=
  C7_amended_recency constS [longB] [longC] rhLong (by simp) longB_tokens
    (by simp) longC_tokens (by simp [rhLong]) rhLong_over_threshold

/-- C8 (amended): every non-empty history at or below its token threshold is
returned raw and unchanged by its getter, and the result does not depend on
the summarizer oracle (no summarization call is made); an empty history is the
corrected exception — the getter returns a placeholder string instead of the
raw empty list. -/
theorem C8_raw_below_threshold (s₁ s₂ : Summarizer) (ch th : List String)
    (rh : List RespEntry)
    (hch₀ : ch ≠ []) (hch : count_string_tokens (pyStrList ch) ≤ 3000)
    (hrh₀ : rh ≠ []) (hrh : count_string_tokens (pyStrHistory rh) ≤ 500)
    (hth₀ : th ≠ []) (hth : count_string_tokens (pyStrList th) ≤ 200) :
    get_conversation_history s₁ ch = .raw ch
    ∧ get_response_history s₁ rh = .raw rh
    ∧ get_thought_history s₁ th = .raw th
    ∧ get_conversation_history s₁ ch = get_conversation_history s₂ ch
    ∧ get_response_history s₁ rh = get_response_history s₂ rh
    ∧ get_thought_history s₁ th = get_thought_history s₂ th := by
  have h₁ : ∀ s : Summarizer, get_conversation_history s ch = .raw ch := by
    intro s
    simp only [get_conversation_history]
    rw [if_neg (fun h => hch₀ (List.length_eq_zero.mp h)), if_neg (Nat.not_lt.mpr hch)]
  have h₂ : ∀ s : Summarizer, get_response_history s rh = .raw rh := by
    intro s
    simp only [get_response_history]
    rw [if_neg (fun h => hrh₀ (List.length_eq_zero.mp h)), if_neg (Nat.not_lt.mpr hrh)]
  have h₃ : ∀ s : Summarizer, get_thought_history s th = .raw th := by
    intro s
    simp only [get_thought_history]
    rw [if_neg (fun h => hth₀ (List.length_eq_zero.mp h)), if_neg (Nat.not_lt.mpr hth)]
  exact ⟨h₁ s₁, h₂ s₁, h₃ s₁, (h₁ s₁).trans (h₁ s₂).symm, (h₂ s₁).trans (h₂ s₂).symm,
    (h₃ s₁).trans (h₃ s₂).symm⟩

/-- Witness for the amended C8 at concrete small non-empty histories. -/
theorem C8_raw_below_threshold_witness :
    get_conversation_history constS ["c"] = .raw ["c"]
    ∧ get_response_history constS [⟨"q", "r"⟩] = .raw [⟨"q", "r"⟩]
    ∧ get_thought_history constS ["t"] = .raw ["t"] := by
  have h := C8_raw_below_threshold constS (fun _ => none) ["c"] ["t"] [⟨"q", "r"⟩]
    (by simp) (by decide) (by simp) (by decide) (by simp) (by decide)
  exact ⟨h.1, h.2.1, h.2.2.1⟩

/-- Counterexample to C8 as stated: the empty conversation history is at or
below the threshold, yet the getter returns a placeholder string rather than
the raw loaded (empty) history. -/
theorem C8_counterexample :
    count_string_tokens (pyStrList ([] : List String)) ≤ 3000
    ∧ get_conversation_history constS [] = .text "There is no conversation history."
    ∧ get_conversation_history constS [] ≠ .raw ([] : List String) :=
  ⟨by decide, rfl, by decide⟩

end MiniAutoGPT
